import Mathlib

/-!
Verification of the xo-cowork-api agent process adapter.

Shallow embedding of the Python sources `claude_code_client.py`,
`codex_code_client.py` and `server.py`.  External effects (process spawn,
stdout reads, exit code, stderr, `json.loads` outcomes) are supplied as
explicit inputs; the pure event-normalisation, prompt-building and
session-registry logic is translated function by function from the source.
-/

/-- JSON values as produced by Python `json.loads`.  Numbers are modelled as
integers (no claim involves fractional numeric payloads); an `obj` holds the
parsed dictionary, i.e. its field list has no duplicate keys. -/
inductive Json where
  | null
  | bool (b : Bool)
  | num (n : Int)
  | str (s : String)
  | arr (elems : List Json)
  | obj (fields : List (String × Json))

/-- Python truthiness (`bool(x)`) for JSON-derived values. -/
def Json.truthy : Json → Bool
  | .null => false
  | .bool b => b
  | .num n => n != 0
  | .str s => s != ""
  | .arr xs => !xs.isEmpty
  | .obj fs => !fs.isEmpty

/-- Whether a JSON value is a Python `str`. -/
def Json.isStr : Json → Bool
  | .str _ => true
  | _ => false

/-- Whether a JSON value is a Python `dict`. -/
def Json.isObj : Json → Bool
  | .obj _ => true
  | _ => false

/-- Python ASCII whitespace, as removed by `str.strip()`. -/
def isPySpace (c : Char) : Bool :=
  c = ' ' || c = '\t' || c = '\n' || c = '\r' || c = Char.ofNat 11 || c = Char.ofNat 12

/-- Python `str.strip()` (ASCII whitespace). -/
def pyStrip (s : String) : String :=
  String.mk (((s.data.dropWhile isPySpace).reverse.dropWhile isPySpace).reverse)

/-- Python `str.lower()` (ASCII case folding). -/
def pyLower (s : String) : String :=
  String.mk (s.data.map Char.toLower)

/-- Python `str.replace("_", "-")`: single-character pattern, hence a
character-wise map. -/
def pyReplaceUnderscore (s : String) : String :=
  String.mk (s.data.map (fun c => if c = '_' then '-' else c))

/-- Python `==` between a JSON-derived value and a string literal: true only
when the value is that string (no exception, no coercion). -/
def pyEqStr (j : Json) (s : String) : Bool :=
  match j with
  | .str t => t == s
  | _ => false

/-- Message used for Python `AttributeError` raised by attribute access on a
value of the wrong dynamic type.  The exact interpolated Python message text is
irrelevant to every claim; a fixed message stands in for it. -/
def attrError : String := "AttributeError"

/-- Message used for Python `TypeError` raised by iterating a non-iterable or
joining non-strings; the exact text is irrelevant to every claim. -/
def typeError : String := "TypeError"

/-- Message used for Python `KeyError` on subscripting a missing key. -/
def keyError : String := "KeyError"

/-- Python `d.get(k, default)`: succeeds on a dict, raises `AttributeError`
on any other value. -/
def pyGet (j : Json) (k : String) (default : Json) : Except String Json :=
  match j with
  | .obj fs => .ok ((fs.lookup k).getD default)
  | _ => .error attrError

/-- Python `d[k]` subscripting on a JSON-derived value. -/
def pySubscript (j : Json) (k : String) : Except String Json :=
  match j with
  | .obj fs =>
    match fs.lookup k with
    | some v => .ok v
    | none => .error keyError
  | _ => .error typeError

/-- Python `for x in v`: lists iterate elements, strings iterate
single-character strings, dicts iterate keys, anything else raises
`TypeError`. -/
def pyIter (j : Json) : Except String (List Json) :=
  match j with
  | .arr xs => .ok xs
  | .str s => .ok (s.data.map (fun c => .str (String.mk [c])))
  | .obj fs => .ok (fs.map (fun p => .str p.1))
  | _ => .error typeError

/-- Python `s.startswith(p)` on a JSON-derived value: raises `AttributeError`
unless the value is a string. -/
def pyStartswith (j : Json) (p : String) : Except String Bool :=
  match j with
  | .str s => .ok (List.isPrefixOf p.data s.data)
  | _ => .error attrError

/-- Python `str(x)` for JSON-derived values.  Container reprs are simplified
(no claim inspects the rendered text of a list or dict). -/
def pyStr : Json → String
  | .null => "None"
  | .bool true => "True"
  | .bool false => "False"
  | .num n => toString n
  | .str s => s
  | .arr _ => "<list repr>"
  | .obj _ => "<dict repr>"

/-- Python `"".join(parts)`: raises `TypeError` when any part is not a
string. -/
def pyJoin : List Json → Except String String
  | [] => .ok ""
  | .str s :: rest => (pyJoin rest).map (fun t => s ++ t)
  | _ :: _ => .error typeError

/-- Python `len(x)` on a JSON-derived value: strings, lists and dicts are
sized; `len` of a number, boolean or `None` raises `TypeError`. -/
def pyLen : Json → Except String Nat
  | .str s => .ok s.length
  | .arr xs => .ok xs.length
  | .obj fs => .ok fs.length
  | _ => .error typeError

/-!
Skill/instruction resolution — `ClaudeCodeClient._skill_name` /
`CodexCodeClient._skill_name` (identical bodies) and the two
`_build_prompt` methods.
-/

/-- `_skill_name(agent_type)`: `None`/empty are falsy; otherwise trim,
lowercase, replace underscore with hyphen; an empty normalised result is
again `None`. -/
def skill_name (agent_type : Option String) : Option String :=
  match agent_type with
  | none => none
  | some a =>
    if a = "" then none
    else
      let normalized := pyReplaceUnderscore (pyLower (pyStrip a))
      if normalized = "" then none else some normalized

/-- `ClaudeCodeClient._build_prompt`: prepend the `/skill` invocation when a
skill name resolves. -/
def claude_build_prompt (question : String) (agent_type : Option String) : String :=
  match skill_name agent_type with
  | none => question
  | some s => "/" ++ s ++ " " ++ question

/-- `CodexCodeClient._build_prompt`: prepend the `$skill` invocation when a
skill name resolves. -/
def codex_build_prompt (question : String) (agent_type : Option String) : String :=
  match skill_name agent_type with
  | none => question
  | some s => "$" ++ s ++ " " ++ question

/-!
Normalized streaming events.  `token` and `error` carry the Python value
placed in the yielded dict (dynamically typed, hence `Json`); framework
messages are `Json.str`.
-/

/-- A normalized streaming event, as yielded by `ask_streaming`. -/
inductive Event where
  | token (payload : Json)
  | error (payload : Json)
  | done

/-- One outcome of `await process.stdout.readline()` under `wait_for`:
a timeout, end of stream (empty bytes), or a line.  `parsed` is the
`json.loads` outcome for the stripped line text (`none` = `JSONDecodeError`);
it is supplied as input because JSON parsing itself is a library call. -/
inductive ReadResult where
  | timeout
  | eof
  | line (raw : String) (parsed : Option Json)

/-- The externally determined behaviour of one streamed subprocess run:
whether spawning raised, the successive read outcomes, the exit code, and the
captured stderr bytes. -/
structure StreamRun where
  spawnFail : Option String
  reads : List ReadResult
  exitCode : Int
  stderr : String

/-- Result of processing a slice of the stream loop: events yielded so far,
the `saw_token` flag, and the message of a Python exception if one escaped. -/
structure StepOut where
  events : List Event
  saw : Bool
  exn : Option String

/-!
`ClaudeCodeClient.ask_streaming` (claude_code_client.py lines 117-223).
The per-line normalisation is split into the inner `for block in content`
loop, the event dispatch, and the read loop, mirroring the source structure.
-/

/-- The `for block in content` loop of the `assistant` branch: for each block
tagged `text`, a truthy `text` field sets `saw_token` and yields a token.
Events yielded before a raised `AttributeError` are retained. -/
def processBlocks : List Json → Bool → StepOut
  | [], saw => ⟨[], saw, none⟩
  | b :: rest, saw =>
    match pyGet b "type" .null with
    | .error m => ⟨[], saw, some m⟩
    | .ok bt =>
      if pyEqStr bt "text" then
        match pyGet b "text" (.str "") with
        | .error m => ⟨[], saw, some m⟩
        | .ok text =>
          if text.truthy then
            let out := processBlocks rest true
            ⟨.token text :: out.events, out.saw, out.exn⟩
          else processBlocks rest saw
      else processBlocks rest saw

/-- Dispatch on `event.get("type", "")` for one parsed line of the Claude
stream (claude_code_client.py lines 174-207). -/
def processEvent (j : Json) (saw : Bool) : StepOut :=
  match pyGet j "type" (.str "") with
  | .error m => ⟨[], saw, some m⟩
  | .ok et =>
    if pyEqStr et "assistant" then
      match pyGet j "message" (.obj []) with
      | .error m => ⟨[], saw, some m⟩
      | .ok message =>
        match pyGet message "content" (.arr []) with
        | .error m => ⟨[], saw, some m⟩
        | .ok content =>
          match pyIter content with
          | .error m => ⟨[], saw, some m⟩
          | .ok blocks => processBlocks blocks saw
    else if pyEqStr et "content_block_delta" then
      match pyGet j "delta" (.obj []) with
      | .error m => ⟨[], saw, some m⟩
      | .ok delta =>
        match pyGet delta "type" .null with
        | .error m => ⟨[], saw, some m⟩
        | .ok dt =>
          if pyEqStr dt "text_delta" then
            match pyGet delta "text" (.str "") with
            | .error m => ⟨[], saw, some m⟩
            | .ok text =>
              if text.truthy then ⟨[.token text], true, none⟩ else ⟨[], saw, none⟩
          else ⟨[], saw, none⟩
    else if pyEqStr et "result" then
      match pyGet j "result" (.str "") with
      | .error m => ⟨[], saw, some m⟩
      | .ok r =>
        if r.truthy && !saw then ⟨[.token r], true, none⟩ else ⟨[], saw, none⟩
    else if pyEqStr et "text" then
      match pyGet j "content" (.str "") with
      | .error m => ⟨[], saw, some m⟩
      | .ok c =>
        if c.truthy then ⟨[.token c], true, none⟩ else ⟨[], saw, none⟩
    else if pyEqStr et "error" then
      match pyGet j "error" (.str "Unknown error") with
      | .error m => ⟨[], saw, some m⟩
      | .ok e => ⟨[.error e], saw, none⟩
    else ⟨[], saw, none⟩

/-- The `while True` read loop of `ClaudeCodeClient.ask_streaming`: a read
timeout yields one error event and breaks; EOF breaks; blank lines are
skipped; a line failing JSON decode becomes a synthetic
`type=text, content=<stripped line>` event; exceptions abort the loop with
events so far retained. -/
def claudeLoop : List ReadResult → Bool → StepOut
  | [], saw => ⟨[], saw, none⟩
  | .timeout :: _, saw => ⟨[.error (.str "Stream timeout")], saw, none⟩
  | .eof :: _, saw => ⟨[], saw, none⟩
  | .line raw parsed :: rest, saw =>
    let s := pyStrip raw
    if s = "" then claudeLoop rest saw
    else
      let event := match parsed with
        | some j => j
        | none => Json.obj [("type", .str "text"), ("content", .str s)]
      let step := processEvent event saw
      match step.exn with
      | some m => ⟨step.events, step.saw, some m⟩
      | none =>
        let out := claudeLoop rest step.saw
        ⟨step.events ++ out.events, out.saw, out.exn⟩

/-- After the read loop: `await process.wait()`; a non-zero exit with
non-empty stripped stderr yields one error event (both clients share this
postlude verbatim). -/
def stderrEvents (run : StreamRun) : List Event :=
  if run.exitCode != 0 then
    if pyStrip run.stderr != "" then [.error (.str (pyStrip run.stderr))] else []
  else []

/-- `ClaudeCodeClient.ask_streaming` as the event sequence it yields for one
run.  A spawn failure is caught by the trailing `except Exception`, which
yields a single error event and ends the generator (no `done`); likewise an
exception escaping the read loop. -/
def claude_ask_streaming (run : StreamRun) : List Event :=
  match run.spawnFail with
  | some m => [.error (.str m)]
  | none =>
    let out := claudeLoop run.reads false
    match out.exn with
    | some m => out.events ++ [.error (.str m)]
    | none => out.events ++ stderrEvents run ++ [.done]

/-!
`ClaudeCodeClient.ask` (claude_code_client.py lines 67-115).  The identical
logic also appears as `ClaudeCodeClient.ask` in server.py lines 247-319.
-/

/-- The externally determined behaviour of one buffered subprocess run.
`stdoutParse` is the `json.loads` outcome on the stripped stdout text
(`none` = `JSONDecodeError`). -/
structure BufferedRun where
  timedOut : Bool
  exitCode : Int
  stderr : String
  stdout : String
  stdoutParse : Option Json

/-- `ClaudeCodeClient.ask`: errors are the messages of the raised Python
`Exception`s.  On success the returned value is the `result` field of the
decoded JSON (any JSON value), the trimmed output when that field is absent
or when decoding fails; a decoded non-dict raises `AttributeError` (the
`.get` call), which is not caught.  Before returning, the logging call
`len(response_text)` (line 110) raises an uncaught `TypeError` when the
response value is not sized (number, boolean, `None`). -/
def claude_ask (timeoutSeconds : Nat) (run : BufferedRun) : Except String Json :=
  if run.timedOut then
    .error ("Claude Code timed out after " ++ toString timeoutSeconds ++ " seconds")
  else if run.exitCode != 0 then
    .error ("Claude Code failed: " ++
      (if run.stderr != "" then pyStrip run.stderr else "Unknown error"))
  else
    let output := pyStrip run.stdout
    let response_text : Except String Json :=
      match run.stdoutParse with
      | none => .ok (.str output)
      | some result =>
        match result with
        | .obj fs => .ok ((fs.lookup "result").getD (.str output))
        | _ => .error attrError
    match response_text with
    | .error m => .error m
    | .ok rt =>
      match pyLen rt with
      | .error m => .error m
      | .ok _ => .ok rt

/-!
`CodexCodeClient` (codex_code_client.py).
-/

/-- `CodexCodeClient._resolve_thread_id`: a falsy session id resolves to
`None`; otherwise look the session id up in the thread map, falling back to
the session id itself. -/
def codex_resolve_thread_id (threadMap : List (String × String))
    (session_id : Option String) : Option String :=
  match session_id with
  | none => none
  | some sid => if sid = "" then none else some ((threadMap.lookup sid).getD sid)

/-- `CodexCodeClient._build_cmd`: a resume with a falsy resolved thread id
raises before any process is spawned; otherwise the argv is a pure function
of the inputs. -/
def codex_build_cmd (cli : String) (threadMap : List (String × String))
    (prompt : String) (session_id : Option String) (is_new : Bool) :
    Except String (List String) :=
  if is_new then .ok [cli, "exec", "--json", prompt]
  else
    match codex_resolve_thread_id threadMap session_id with
    | none => .error "Codex resume requires a session_id"
    | some tid =>
      if tid = "" then .error "Codex resume requires a session_id"
      else .ok [cli, "exec", "resume", "--json", tid, prompt]

/-- The `for part in content` collection of `chunks` inside
`_extract_text_from_item`: parts that are dicts whose `text` value is a
string contribute `part["text"]` (a subscript that can in principle raise). -/
def collect_chunks : List Json → Except String (List Json)
  | [] => .ok []
  | p :: rest =>
    match p with
    | .obj pf =>
      match (pf.lookup "text").getD .null with
      | .str _ =>
        match pySubscript p "text" with
        | .error m => .error m
        | .ok v =>
          match collect_chunks rest with
          | .error m => .error m
          | .ok others => .ok (v :: others)
      | _ => collect_chunks rest
    | _ => collect_chunks rest

/-- The `message.get("content", [])` part of `_extract_text_from_item`:
when the content is a list, join the collected string chunks; otherwise fall
through to the empty string. -/
def extract_content_part (msg : List (String × Json)) : Except String String :=
  match (msg.lookup "content").getD (.arr []) with
  | .arr parts =>
    match collect_chunks parts with
    | .error m => .error m
    | .ok chunks => pyJoin chunks
  | _ => .ok ""

/-- The `message` branch of `_extract_text_from_item`: a dict-valued
`message` with a non-empty string `text` short-circuits, else its content
list is joined; a non-dict `message` yields the empty string. -/
def extract_message_part (item : List (String × Json)) : Except String String :=
  match (item.lookup "message").getD .null with
  | .obj msg =>
    match (msg.lookup "text").getD .null with
    | .str s => if s != "" then .ok s else extract_content_part msg
    | _ => extract_content_part msg
  | _ => .ok ""

/-- `CodexCodeClient._extract_text_from_item` on a dict argument (the only
way it is called): best-effort text extraction.  Python operations that could
raise (`part["text"]` subscripting, `"".join`) are modelled as fallible. -/
def extract_text_from_item (item : List (String × Json)) : Except String String :=
  if item.isEmpty then .ok ""
  else
    match (item.lookup "text").getD .null with
    | .str s => if s != "" then .ok s else extract_message_part item
    | _ => extract_message_part item

/-- Dispatch on `event.get("type", "")` for one parsed line of the Codex
stream (codex_code_client.py lines 205-223), threading the captured
`thread_id`.  `event_type.startswith` raises `AttributeError` on a non-string
type tag. -/
def codexStep (j : Json) (th : Json) : Except String (List Event × Json) :=
  match pyGet j "type" (.str "") with
  | .error m => .error m
  | .ok et =>
    if pyEqStr et "thread.started" then
      match pyGet j "thread_id" .null with
      | .error m => .error m
      | .ok tid => .ok ([], if tid.truthy then tid else th)
    else
      match pyGet j "item" (.obj []) with
      | .error m => .error m
      | .ok item =>
        match pyStartswith et "item." with
        | .error m => .error m
        | .ok sw =>
          match item, sw with
          | .obj fs, true =>
            match extract_text_from_item fs with
            | .error m => .error m
            | .ok text =>
              if text != "" then .ok ([.token (.str text)], th) else .ok ([], th)
          | _, _ =>
            if pyEqStr et "error" then
              match pyGet j "error" .null with
              | .error m => .error m
              | .ok err =>
                let err2 := match err with
                  | .obj ef => (ef.lookup "message").getD (.str "Unknown error")
                  | _ => err
                .ok ([.error (.str (pyStr (if err2.truthy then err2 else .str "Unknown error")))], th)
            else if pyEqStr et "turn.failed" then
              .ok ([.error (.str "Codex turn failed")], th)
            else .ok ([], th)

/-- The `while True` read loop of `CodexCodeClient.ask_streaming`: unlike the
Claude client, a line failing JSON decode is skipped (`continue`) — it is
discarded, not surfaced. -/
def codexLoop : List ReadResult → Json → StepOut
  | [], _ => ⟨[], false, none⟩
  | .timeout :: _, _ => ⟨[.error (.str "Stream timeout")], false, none⟩
  | .eof :: _, _ => ⟨[], false, none⟩
  | .line raw parsed :: rest, th =>
    let s := pyStrip raw
    if s = "" then codexLoop rest th
    else
      match parsed with
      | none => codexLoop rest th
      | some j =>
        match codexStep j th with
        | .error m => ⟨[], false, some m⟩
        | .ok (evs, th2) =>
          let out := codexLoop rest th2
          ⟨evs ++ out.events, false, out.exn⟩

/-- `CodexCodeClient.ask_streaming`.  `_build_cmd` runs before the `try`
block and before the first yield, so its exception propagates to the caller
with no events and no process spawned (`Except.error`).  Spawn failures and
loop exceptions are caught by the trailing `except Exception`, which yields
one error event and ends the generator.  (The thread-map commit at lines
234-235 updates the registry, not the event stream, and no claim depends on
it; it is not modelled here.) -/
def codex_ask_streaming (cli : String) (threadMap : List (String × String))
    (question : String) (agent_type : Option String) (session_id : Option String)
    (is_new : Bool) (run : StreamRun) : Except String (List Event) :=
  let prompt := codex_build_prompt question agent_type
  match codex_build_cmd cli threadMap prompt session_id is_new with
  | .error m => .error m
  | .ok _ =>
    match run.spawnFail with
    | some m => .ok [.error (.str m)]
    | none =>
      let out := codexLoop run.reads .null
      match out.exn with
      | some m => .ok (out.events ++ [.error (.str m)])
      | none => .ok (out.events ++ stderrEvents run ++ [.done])

/-!
Server endpoints (server.py).  The server instantiates its own
`ClaudeCodeClient` whose `ask_streaming` yields the raw parsed events; the
endpoint's `generate_stream` (lines 720-794) normalises them, buffering
`full_response_parts` and tracking `stream_success`.  The client generator
never lets an exception escape (its body is wrapped in try/except yielding an
error event), so the input to `generate_stream` is a plain list of JSON
events.
-/

/-- Output of one `generate_stream` dispatch step: SSE events emitted, the
updated `full_response_parts` buffer, and a Python exception if one was
raised (caught by the endpoint's own `except`). -/
structure GenStep where
  sse : List Event
  parts : List Json
  exn : Option String

/-- The `for block in content` loop of the endpoint's `assistant` branch:
truthy texts are appended to `full_response_parts` and streamed as tokens. -/
def genBlocks : List Json → List Json → GenStep
  | [], parts => ⟨[], parts, none⟩
  | b :: rest, parts =>
    match pyGet b "type" .null with
    | .error m => ⟨[], parts, some m⟩
    | .ok bt =>
      if pyEqStr bt "text" then
        match pyGet b "text" (.str "") with
        | .error m => ⟨[], parts, some m⟩
        | .ok text =>
          if text.truthy then
            let out := genBlocks rest (parts ++ [text])
            ⟨.token text :: out.sse, out.parts, out.exn⟩
          else genBlocks rest parts
      else genBlocks rest parts

/-- Dispatch on `event.get("type", "")` in the endpoint's `generate_stream`
(server.py lines 729-767).  Unlike the client normaliser, the `result` branch
is guarded by `not full_response_parts` rather than a `saw_token` flag. -/
def genStep (j : Json) (parts : List Json) : GenStep :=
  match pyGet j "type" (.str "") with
  | .error m => ⟨[], parts, some m⟩
  | .ok et =>
    if pyEqStr et "assistant" then
      match pyGet j "message" (.obj []) with
      | .error m => ⟨[], parts, some m⟩
      | .ok message =>
        match pyGet message "content" (.arr []) with
        | .error m => ⟨[], parts, some m⟩
        | .ok content =>
          match pyIter content with
          | .error m => ⟨[], parts, some m⟩
          | .ok blocks => genBlocks blocks parts
    else if pyEqStr et "content_block_delta" then
      match pyGet j "delta" (.obj []) with
      | .error m => ⟨[], parts, some m⟩
      | .ok delta =>
        match pyGet delta "type" .null with
        | .error m => ⟨[], parts, some m⟩
        | .ok dt =>
          if pyEqStr dt "text_delta" then
            match pyGet delta "text" (.str "") with
            | .error m => ⟨[], parts, some m⟩
            | .ok text =>
              if text.truthy then ⟨[.token text], parts ++ [text], none⟩
              else ⟨[], parts, none⟩
          else ⟨[], parts, none⟩
    else if pyEqStr et "result" then
      match pyGet j "result" (.str "") with
      | .error m => ⟨[], parts, some m⟩
      | .ok r =>
        if r.truthy && parts.isEmpty then ⟨[.token r], parts ++ [r], none⟩
        else ⟨[], parts, none⟩
    else if pyEqStr et "error" then
      match pyGet j "error" (.str "Unknown error") with
      | .error m => ⟨[], parts, some m⟩
      | .ok e => ⟨[.error e], parts, none⟩
    else if pyEqStr et "text" then
      match pyGet j "content" (.str "") with
      | .error m => ⟨[], parts, some m⟩
      | .ok c =>
        if c.truthy then ⟨[.token c], parts ++ [c], none⟩ else ⟨[], parts, none⟩
    else ⟨[], parts, none⟩

/-- The `async for` loop of `generate_stream` over the client's events. -/
def genLoop : List Json → List Json → GenStep
  | [], parts => ⟨[], parts, none⟩
  | j :: rest, parts =>
    match genStep j parts with
    | ⟨evs, parts2, some m⟩ => ⟨evs, parts2, some m⟩
    | ⟨evs, parts2, none⟩ =>
      let out := genLoop rest parts2
      ⟨evs ++ out.sse, out.parts, out.exn⟩

/-- Final state of the endpoint's `generate_stream`: emitted SSE events, the
final `stream_success` flag and `full_response_parts`.  After the loop the
code yields the done event and sets `stream_success = True` unconditionally
(server.py lines 770-771), so the `stream_success = False` assignment made on
an `error` event (line 759) survives only when a later exception occurs; on
an exception the handler yields one error event and sets it to `False`. -/
structure GenOut where
  out : List Event
  success : Bool
  parts : List Json

/-- The endpoint's `generate_stream`, as a function of the backend client's
event list. -/
def generate_stream (events : List Json) : GenOut :=
  match genLoop events [] with
  | ⟨evs, parts, some m⟩ => ⟨evs ++ [.error (.str m)], false, parts⟩
  | ⟨evs, parts, none⟩ => ⟨evs ++ [.done], true, parts⟩

/-- In-memory `session_store` (a dict keyed by project name), modelled as an
association list where the head entry shadows later ones. -/
def storeInsert (store : List (String × String)) (k v : String) :
    List (String × String) :=
  (k, v) :: store

/-- The session-store effect of one `/ask_question_streaming` request
(server.py lines 705-782): an absent conversation key makes the turn new with
the freshly generated id; the `finally` block writes the store only when the
turn was new, `stream_success` is set and `full_response_parts` is
non-empty. -/
def streaming_store_update (store : List (String × String)) (project : String)
    (freshId : String) (clientEvents : List Json) : List (String × String) :=
  let existing := store.lookup project
  let sid := existing.getD freshId
  let is_new := existing.isNone
  let g := generate_stream clientEvents
  if is_new && g.success && !g.parts.isEmpty then storeInsert store project sid
  else store

/-- One `/ask_question` request (server.py lines 632-690): the session id
passed to the client is the stored one, or the freshly generated id for an
unseen key; the store is written only after `claude_client.ask` returns
without raising.  The outcome of `claude_client.ask` is supplied as an oracle
of the id and newness actually passed to it. -/
def ask_question_update (store : List (String × String)) (project : String)
    (freshId : String) (ask : String → Bool → Except String Json) :
    List (String × String) × Except String Json :=
  let existing := store.lookup project
  let sid := existing.getD freshId
  let is_new := existing.isNone
  match ask sid is_new with
  | .error e => (store, .error e)
  | .ok resp =>
    ((if is_new then storeInsert store project sid else store), .ok resp)

/-!
Auxiliary observations on event sequences, used to state the claims.
-/

/-- Whether an event is a token event. -/
def isTok : Event → Bool
  | .token _ => true
  | _ => false

/-- Whether at least one token event occurs in a list. -/
def hasTok (evs : List Event) : Bool := evs.any isTok

/-- Whether an event is the terminal done event. -/
def isDone : Event → Bool
  | .done => true
  | _ => false

/-- Number of done events in a list. -/
def countDone (evs : List Event) : Nat := evs.countP (fun e => isDone e)

/-- Whether a list of events contains a token whose payload is the given
string. -/
def containsTokenStr (evs : List Event) (s : String) : Bool :=
  evs.any (fun e => match e with | .token (.str t) => t == s | _ => false)

/-- Whether `needle` occurs as a contiguous substring of `hay`. -/
def strContainsSub (needle hay : String) : Bool :=
  hay.data.tails.any (fun t => List.isPrefixOf needle.data t)

/-- Shape invariant of events emitted by the Claude stream-normalisation
loop: tokens carry a truthy payload, errors are unconstrained, and the loop
itself never emits done. -/
def emitOkClaude : Event → Prop
  | .token p => p.truthy = true
  | .error _ => True
  | .done => False

/-- Shape invariant of events emitted by the Codex stream-normalisation
loop: tokens carry a non-empty string, errors are unconstrained, no done. -/
def emitOkCodex : Event → Prop
  | .token p => p.isStr = true ∧ p.truthy = true
  | .error _ => True
  | .done => False

/-- Backend events of the C3 failing input: one raw-text token line followed
by the error event the server-side client emits on a read timeout. -/
def c3_client_events : List Json :=
  [.obj [("type", .str "text"), ("content", .str "Hi")],
   .obj [("type", .str "error"), ("error", .str "Stream timeout")]]

/-!
Helper lemmas.
-/

theorem pyEqStr_eq {j : Json} {s : String} (h : pyEqStr j s = true) : j = .str s := by
  cases j <;> simp_all [pyEqStr]

theorem processBlocks_saw (bs : List Json) (saw : Bool) :
    (processBlocks bs saw).saw = (saw || hasTok (processBlocks bs saw).events) := by
  induction bs generalizing saw with
  | nil => simp [processBlocks, hasTok]
  | cons b rest ih =>
    simp only [processBlocks]
    split
    · simp [hasTok]
    · split
      · split
        · simp [hasTok]
        · split
          · simp [hasTok, isTok, ih true]
          · exact ih saw
      · exact ih saw

theorem processBlocks_emit (bs : List Json) (saw : Bool) :
    ∀ e ∈ (processBlocks bs saw).events, emitOkClaude e := by
  induction bs generalizing saw with
  | nil => simp [processBlocks]
  | cons b rest ih =>
    simp only [processBlocks]
    split
    · simp
    · split
      · split
        · simp
        · split
          · intro e he
            rcases List.mem_cons.mp he with h | h
            · subst h; simpa [emitOkClaude] using by assumption
            · exact ih true e h
          · exact ih saw
      · exact ih saw

theorem processEvent_saw (j : Json) (saw : Bool) :
    (processEvent j saw).saw = (saw || hasTok (processEvent j saw).events) := by
  unfold processEvent
  repeat' split
  all_goals first
    | exact processBlocks_saw _ _
    | simp_all [hasTok, isTok]

theorem processEvent_emit (j : Json) (saw : Bool) :
    ∀ e ∈ (processEvent j saw).events, emitOkClaude e := by
  unfold processEvent
  repeat' split
  all_goals first
    | exact processBlocks_emit _ _
    | simp_all [emitOkClaude]

theorem claudeLoop_saw (reads : List ReadResult) (saw : Bool) :
    (claudeLoop reads saw).saw = (saw || hasTok (claudeLoop reads saw).events) := by
  induction reads generalizing saw with
  | nil => simp [claudeLoop, hasTok]
  | cons r rest ih =>
    cases r with
    | timeout => simp [claudeLoop, hasTok, isTok]
    | eof => simp [claudeLoop, hasTok]
    | line raw parsed =>
      simp only [claudeLoop]
      split
      · exact ih saw
      · have hs := processEvent_saw (match parsed with
          | some j => j
          | none => Json.obj [("type", .str "text"), ("content", .str (pyStrip raw))]) saw
        split
        · simpa using hs
        · simp only [hasTok, List.any_append]
          rw [ih]
          rw [hs]
          simp [hasTok, Bool.or_assoc]

theorem claudeLoop_emit (reads : List ReadResult) (saw : Bool) :
    ∀ e ∈ (claudeLoop reads saw).events, emitOkClaude e := by
  induction reads generalizing saw with
  | nil => simp [claudeLoop]
  | cons r rest ih =>
    cases r with
    | timeout => simp [claudeLoop, emitOkClaude]
    | eof => simp [claudeLoop]
    | line raw parsed =>
      simp only [claudeLoop]
      split
      · exact ih saw
      · have he := processEvent_emit (match parsed with
          | some j => j
          | none => Json.obj [("type", .str "text"), ("content", .str (pyStrip raw))]) saw
        split
        · simpa using he
        · intro e hmem
          rcases List.mem_append.mp hmem with h | h
          · exact he e h
          · exact ih _ e h

theorem stderrEvents_emit (run : StreamRun) :
    ∀ e ∈ stderrEvents run, ∃ m, e = .error m := by
  unfold stderrEvents
  repeat' split
  all_goals simp

theorem codexStep_emit (j th : Json) (evs : List Event) (th2 : Json)
    (h : codexStep j th = .ok (evs, th2)) : ∀ e ∈ evs, emitOkCodex e := by
  unfold codexStep at h
  repeat' split at h
  all_goals simp_all [emitOkCodex, Json.isStr, Json.truthy]
  all_goals (rcases h with ⟨rfl, rfl⟩; simp_all [emitOkCodex, Json.isStr, Json.truthy])

theorem codexLoop_emit (reads : List ReadResult) (th : Json) :
    ∀ e ∈ (codexLoop reads th).events, emitOkCodex e := by
  induction reads generalizing th with
  | nil => simp [codexLoop]
  | cons r rest ih =>
    cases r with
    | timeout => simp [codexLoop, emitOkCodex]
    | eof => simp [codexLoop]
    | line raw parsed =>
      simp only [codexLoop]
      split
      · exact ih th
      · split
        · exact ih th
        · split
          · simp
          · rename_i j hj evs th2 hstep
            intro e hmem
            rcases List.mem_append.mp hmem with h | h
            · exact codexStep_emit _ _ _ _ hstep e h
            · exact ih _ e h

theorem emitOkClaude_not_done {e : Event} (h : emitOkClaude e) : isDone e = false := by
  cases e <;> simp_all [emitOkClaude, isDone]

theorem emitOkCodex_not_done {e : Event} (h : emitOkCodex e) : isDone e = false := by
  cases e <;> simp_all [emitOkCodex, isDone]

theorem countDone_eq_zero {evs : List Event} (h : ∀ e ∈ evs, isDone e = false) :
    countDone evs = 0 := by
  unfold countDone
  exact List.countP_eq_zero.mpr (by simpa using h)

theorem countDone_claudeLoop (reads : List ReadResult) (saw : Bool) :
    countDone (claudeLoop reads saw).events = 0 :=
  countDone_eq_zero (fun e he => emitOkClaude_not_done (claudeLoop_emit reads saw e he))

theorem countDone_stderrEvents (run : StreamRun) : countDone (stderrEvents run) = 0 :=
  countDone_eq_zero (fun e he => by
    rcases stderrEvents_emit run e he with ⟨m, rfl⟩
    simp [isDone])

theorem countDone_codexLoop (reads : List ReadResult) (th : Json) :
    countDone (codexLoop reads th).events = 0 :=
  countDone_eq_zero (fun e he => emitOkCodex_not_done (codexLoop_emit reads th e he))

theorem countDone_append (a b : List Event) :
    countDone (a ++ b) = countDone a + countDone b :=
  List.countP_append _ a b

theorem pyJoin_ok (chunks : List Json) (h : ∀ c ∈ chunks, c.isStr = true) :
    ∃ s, pyJoin chunks = .ok s := by
  induction chunks with
  | nil => exact ⟨"", rfl⟩
  | cons c rest ih =>
    rcases ih (fun x hx => h x (List.mem_cons_of_mem _ hx)) with ⟨t, ht⟩
    have hc := h c (List.mem_cons_self c rest)
    cases c <;> simp [Json.isStr] at hc
    rename_i s
    exact ⟨s ++ t, by simp [pyJoin, ht, Except.map]⟩

theorem collect_chunks_ok (parts : List Json) :
    ∃ chunks, collect_chunks parts = .ok chunks ∧ ∀ c ∈ chunks, c.isStr = true := by
  induction parts with
  | nil => exact ⟨[], rfl, by simp⟩
  | cons p rest ih =>
    rcases ih with ⟨chunks, hck, hall⟩
    cases p
    case obj pf =>
      cases hlk : pf.lookup "text" with
      | none => exact ⟨chunks, by simp [collect_chunks, hlk, hck], hall⟩
      | some v =>
        cases v
        case str t =>
          refine ⟨.str t :: chunks, ?_, ?_⟩
          · simp [collect_chunks, hlk, pySubscript, hck]
          · intro c hc
            rcases List.mem_cons.mp hc with rfl | hc
            · simp [Json.isStr]
            · exact hall c hc
        all_goals exact ⟨chunks, by simp [collect_chunks, hlk, hck], hall⟩
    all_goals exact ⟨chunks, by simp [collect_chunks, hck], hall⟩

theorem extract_content_part_ok (msg : List (String × Json)) :
    ∃ s, extract_content_part msg = .ok s := by
  unfold extract_content_part
  split
  · rename_i parts hparts
    rcases collect_chunks_ok parts with ⟨chunks, hck, hall⟩
    rcases pyJoin_ok chunks hall with ⟨s, hs⟩
    exact ⟨s, by simp [hck, hs]⟩
  · exact ⟨"", rfl⟩

theorem extract_message_part_ok (item : List (String × Json)) :
    ∃ s, extract_message_part item = .ok s := by
  unfold extract_message_part
  repeat' split
  all_goals first
    | exact ⟨_, rfl⟩
    | exact extract_content_part_ok _

/-!
Claim theorems.
-/

/-- C1, counterexample: a streamed Claude turn whose process spawn raises an
exception yields a single error event and no done event at all, refuting the
claim that every streamed turn ends with exactly one done event even when it
fails with an exception. -/
theorem C1_counterexample :
    claude_ask_streaming ⟨some "spawn failed", [], 0, ""⟩ = [.error (.str "spawn failed")]
    ∧ countDone (claude_ask_streaming ⟨some "spawn failed", [], 0, ""⟩) = 0 :=
  ⟨rfl, rfl⟩

/-- C1, amended: when no Python exception escapes the generator body — the
spawn succeeds and every line is processed without a raised error — the event
sequence of a streamed turn on either backend client ends with exactly one
done event and nothing follows it, including on per-read timeout, zero-token
output and non-zero exit; when an exception does escape, the stream instead
ends with an error event and no done event is emitted. -/
theorem C1_amended :
    (∀ run : StreamRun, run.spawnFail = none → (claudeLoop run.reads false).exn = none →
      claude_ask_streaming run =
        ((claudeLoop run.reads false).events ++ stderrEvents run) ++ [.done]
      ∧ countDone ((claudeLoop run.reads false).events ++ stderrEvents run) = 0)
  ∧ (∀ cli tm q agentTy sid isNew run cmd,
      codex_build_cmd cli tm (codex_build_prompt q agentTy) sid isNew = .ok cmd →
      run.spawnFail = none → (codexLoop run.reads .null).exn = none →
      codex_ask_streaming cli tm q agentTy sid isNew run =
        .ok (((codexLoop run.reads .null).events ++ stderrEvents run) ++ [.done])
      ∧ countDone ((codexLoop run.reads .null).events ++ stderrEvents run) = 0)
  ∧ (∀ run m, run.spawnFail = some m →
      claude_ask_streaming run = [.error (.str m)]) := by
  refine ⟨?_, ?_, ?_⟩
  · intro run h1 h2
    constructor
    · simp [claude_ask_streaming, h1, h2]
    · rw [countDone_append, countDone_claudeLoop, countDone_stderrEvents]
  · intro cli tm q agentTy sid isNew run cmd hcmd h1 h2
    constructor
    · simp [codex_ask_streaming, hcmd, h1, h2]
    · rw [countDone_append, countDone_codexLoop, countDone_stderrEvents]
  · intro run m h1
    simp [claude_ask_streaming, h1]

/-- C1, witness for the amended theorem at a concrete one-line run. -/
theorem C1_witness :
    claude_ask_streaming ⟨none, [.line "hello" none], 0, ""⟩ =
      ((claudeLoop [.line "hello" none] false).events
        ++ stderrEvents ⟨none, [.line "hello" none], 0, ""⟩) ++ [.done]
    ∧ countDone ((claudeLoop [.line "hello" none] false).events
        ++ stderrEvents ⟨none, [.line "hello" none], 0, ""⟩) = 0 :=
  C1_amended.1 ⟨none, [.line "hello" none], 0, ""⟩ rfl rfl

/-- C2: on the Claude vocabulary, a line tagged `result` emits no token when
`saw_token` is already set; it emits exactly one token carrying the result
string when `saw_token` is unset and the result string is non-empty; and the
`saw_token` flag is set exactly when some token event was emitted earlier in
the same turn. -/
theorem C2_result_dedup :
    (∀ fs saw, pyEqStr ((fs.lookup "type").getD (.str "")) "result" = true →
      (saw = true → processEvent (.obj fs) saw = ⟨[], true, none⟩)
      ∧ (∀ s, s ≠ "" → (fs.lookup "result").getD (.str "") = .str s →
          processEvent (.obj fs) false = ⟨[.token (.str s)], true, none⟩))
  ∧ (∀ reads saw, (claudeLoop reads saw).saw = (saw || hasTok (claudeLoop reads saw).events)) := by
  constructor
  · intro fs saw ht
    have hty := pyEqStr_eq ht
    constructor
    · intro hs
      subst hs
      simp [processEvent, pyGet, hty, pyEqStr]
    · intro s hs hr
      simp [processEvent, pyGet, hty, hr, pyEqStr, Json.truthy, hs]
  · exact fun reads saw => claudeLoop_saw reads saw

/-- C2, witness: a result line with text "ok" and no prior token emits
exactly one token carrying "ok". -/
theorem C2_witness :
    processEvent (.obj [("type", .str "result"), ("result", .str "ok")]) false =
      ⟨[.token (.str "ok")], true, none⟩ :=
  (C2_result_dedup.1 [("type", .str "result"), ("result", .str "ok")] false rfl).2
    "ok" (by decide) rfl

/-- C3, code bug: for a fresh conversation key, a streamed turn that emits a
token and then an error event (a failed turn) still writes the session id
into the store, because `generate_stream` sets `stream_success` to true after
the loop regardless of earlier error events — contradicting the code's own
comments and the claim that a failed turn leaves the store unchanged. -/
theorem C3_streaming_stores_failed_turn :
    (generate_stream c3_client_events).out =
      [.token (.str "Hi"), .error (.str "Stream timeout"), .done]
    ∧ (generate_stream c3_client_events).success = true
    ∧ streaming_store_update [] "proj" "sid-1" c3_client_events = [("proj", "sid-1")] :=
  ⟨rfl, rfl, rfl⟩

/-- C4, counterexample: a resume for a session id unknown to the thread map
does not fail — `_resolve_thread_id` falls back to the session id itself and
the command is built, refuting the claim that such a resume fails with a
configuration error before any process is spawned. -/
theorem C4_counterexample :
    codex_resolve_thread_id [] (some "s1") = some "s1"
    ∧ codex_build_cmd "codex" [] "q" (some "s1") false =
        .ok ["codex", "exec", "resume", "--json", "s1", "q"] :=
  ⟨rfl, rfl⟩

/-- C4, amended: a resume turn fails with the configuration error before any
process is spawned exactly when the session id is absent or empty (or maps to
an empty thread id); when the session id is merely unknown to the thread map,
the command resumes using the session id itself as the thread identity. -/
theorem C4_amended :
    (∀ cli tm prompt,
      codex_build_cmd cli tm prompt none false = .error "Codex resume requires a session_id")
  ∧ (∀ cli tm prompt,
      codex_build_cmd cli tm prompt (some "") false = .error "Codex resume requires a session_id")
  ∧ (∀ cli tm q agentTy run,
      codex_ask_streaming cli tm q agentTy none false run = .error "Codex resume requires a session_id")
  ∧ (∀ cli tm prompt sid, sid ≠ "" → tm.lookup sid = none →
      codex_build_cmd cli tm prompt (some sid) false =
        .ok [cli, "exec", "resume", "--json", sid, prompt]) := by
  refine ⟨fun cli tm prompt => rfl, fun cli tm prompt => rfl, fun cli tm q agentTy run => rfl, ?_⟩
  intro cli tm prompt sid hsid hlk
  simp [codex_build_cmd, codex_resolve_thread_id, hsid, hlk]

/-- C4, witness for the amended theorem: resuming with an unmapped non-empty
session id builds a resume command addressed by the session id itself. -/
theorem C4_witness :
    codex_build_cmd "codex" [("other", "t9")] "q" (some "s2") false =
      .ok ["codex", "exec", "resume", "--json", "s2", "q"] :=
  C4_amended.2.2.2 "codex" [("other", "t9")] "q" "s2" (by decide) rfl

/-- C5, counterexample: on the Codex client a stdout line that fails JSON
decoding is discarded (`continue`), not surfaced as a text-carrying event:
the stream for a run containing such a line holds no token carrying it,
refuting the claim for that backend. -/
theorem C5_counterexample :
    codex_ask_streaming "codex" [] "q" none none true
      ⟨none,
       [.line "oops not json" none,
        .line "\x7b\x22type\x22: \x22item.completed\x22, \x22item\x22: \x7b\x22text\x22: \x22hi\x22\x7d\x7d"
          (some (.obj [("type", .str "item.completed"), ("item", .obj [("text", .str "hi")])])),
        .eof], 0, ""⟩ =
      .ok [.token (.str "hi"), .done]
    ∧ containsTokenStr [.token (.str "hi"), .done] "oops not json" = false :=
  ⟨rfl, rfl⟩

/-- C5, amended: a line failing JSON decode never aborts the stream and
reading continues on both clients; on the Claude client it is surfaced as one
token carrying the stripped line text, while on the Codex client it is
silently skipped. -/
theorem C5_amended :
    (∀ raw rest saw, pyStrip raw ≠ "" →
      claudeLoop (.line raw none :: rest) saw =
        ⟨.token (.str (pyStrip raw)) :: (claudeLoop rest true).events,
         (claudeLoop rest true).saw, (claudeLoop rest true).exn⟩)
  ∧ (∀ raw rest th, codexLoop (.line raw none :: rest) th = codexLoop rest th) := by
  constructor
  · intro raw rest saw h
    have hpe : processEvent (Json.obj [("type", .str "text"), ("content", .str (pyStrip raw))]) saw
        = ⟨[.token (.str (pyStrip raw))], true, none⟩ := by
      simp [processEvent, pyGet, pyEqStr, Json.truthy, h, List.lookup]
    simp [claudeLoop, h, hpe]
  · intro raw rest th
    simp only [codexLoop]
    split
    · rfl
    · rfl

/-- C5, witness for the amended theorem at a concrete non-JSON line. -/
theorem C5_witness :
    claudeLoop [.line " zap " none] false = ⟨[.token (.str "zap")], true, none⟩
    ∧ codexLoop [.line " zap " none] .null = ⟨[], false, none⟩ :=
  ⟨C5_amended.1 " zap " [] false (by decide), C5_amended.2 " zap " [] .null⟩

/-- C6, counterexample: on exit code 1 with stderr " rate limited " the
buffered call fails with an error whose message embeds the trimmed stderr but
contains no trace of the exit code, refuting the claim that the error carries
the exit information. -/
theorem C6_counterexample :
    claude_ask 300 ⟨false, 1, " rate limited ", "", none⟩ =
      .error "Claude Code failed: rate limited"
    ∧ strContainsSub "rate limited" "Claude Code failed: rate limited" = true
    ∧ strContainsSub "1" "Claude Code failed: rate limited" = false :=
  ⟨rfl, rfl, rfl⟩

/-- C6, amended: a buffered turn that times out fails with an error naming
the configured deadline; a non-zero exit fails with an error whose message is
the fixed prefix followed by the trimmed stderr (or a fixed fallback when
stderr is empty), without the exit code; in streaming mode a non-zero exit
with non-empty trimmed stderr yields an error event carrying the trimmed
stderr followed by the done event. -/
theorem C6_amended :
    (∀ ts run, run.timedOut = true →
      claude_ask ts run =
        .error ("Claude Code timed out after " ++ toString ts ++ " seconds"))
  ∧ (∀ ts run, run.timedOut = false → run.exitCode ≠ 0 →
      claude_ask ts run =
        .error ("Claude Code failed: " ++
          (if run.stderr != "" then pyStrip run.stderr else "Unknown error")))
  ∧ (∀ run : StreamRun, run.spawnFail = none → (claudeLoop run.reads false).exn = none →
      run.exitCode ≠ 0 → pyStrip run.stderr ≠ "" →
      claude_ask_streaming run =
        (claudeLoop run.reads false).events
          ++ [.error (.str (pyStrip run.stderr)), .done]) := by
  refine ⟨?_, ?_, ?_⟩
  · intro ts run h
    simp [claude_ask, h]
  · intro ts run h1 h2
    simp [claude_ask, h1, h2]
  · intro run h1 h2 h3 h4
    simp [claude_ask_streaming, h1, h2, stderrEvents, h3, h4]

/-- C6, witness for the amended theorem at concrete failing runs. -/
theorem C6_witness :
    claude_ask 300 ⟨false, 2, " broken pipe ", "", none⟩ =
      .error "Claude Code failed: broken pipe"
    ∧ claude_ask_streaming ⟨none, [], 1, " oom "⟩ =
        [.error (.str "oom"), .done] := by
  constructor
  · exact C6_amended.2.1 300 ⟨false, 2, " broken pipe ", "", none⟩ rfl (by decide)
  · exact C6_amended.2.2 ⟨none, [], 1, " oom "⟩ rfl rfl (by decide) (by decide)

/-- C7, counterexample: a successful buffered turn whose trimmed stdout is
valid JSON but not an object (here the number 5) raises `AttributeError`
instead of returning any text, refuting the claim that malformed output never
raises. -/
theorem C7_counterexample :
    claude_ask 300 ⟨false, 0, "", "5", some (.num 5)⟩ = .error attrError
    ∧ claude_ask 300 ⟨false, 0, "", "5", some (.num 5)⟩ ≠ .ok (.str "5") := by
  refine ⟨rfl, ?_⟩
  intro h
  rw [show claude_ask 300 ⟨false, 0, "", "5", some (.num 5)⟩ = Except.error attrError from rfl] at h
  exact Except.noConfusion h

/-- C7, amended: on a successful buffered turn, stdout that fails JSON decode
is returned as its trimmed text verbatim; stdout decoding to a JSON object
returns the value of its result field (defaulting to the trimmed text when
the field is absent) provided that value is sized — a string, list or dict,
so that the logging call to `len` succeeds; an object whose result field
holds a non-sized value (number, boolean, null) raises `TypeError` at the
`len` call; and stdout decoding to a non-object JSON value raises
`AttributeError`. -/
theorem C7_amended :
    (∀ ts run, run.timedOut = false → run.exitCode = 0 → run.stdoutParse = none →
      claude_ask ts run = .ok (.str (pyStrip run.stdout)))
  ∧ (∀ ts run fs n, run.timedOut = false → run.exitCode = 0 →
      run.stdoutParse = some (.obj fs) →
      pyLen ((fs.lookup "result").getD (.str (pyStrip run.stdout))) = .ok n →
      claude_ask ts run = .ok ((fs.lookup "result").getD (.str (pyStrip run.stdout))))
  ∧ (∀ ts run fs m, run.timedOut = false → run.exitCode = 0 →
      run.stdoutParse = some (.obj fs) →
      pyLen ((fs.lookup "result").getD (.str (pyStrip run.stdout))) = .error m →
      claude_ask ts run = .error m)
  ∧ (∀ ts run j, run.timedOut = false → run.exitCode = 0 →
      run.stdoutParse = some j → j.isObj = false →
      claude_ask ts run = .error attrError) := by
  refine ⟨?_, ?_, ?_, ?_⟩
  · intro ts run h1 h2 h3
    simp [claude_ask, h1, h2, h3, pyLen]
  · intro ts run fs n h1 h2 h3 hlen
    simp [claude_ask, h1, h2, h3, hlen]
  · intro ts run fs m h1 h2 h3 hlen
    simp [claude_ask, h1, h2, h3, hlen]
  · intro ts run j h1 h2 h3 h4
    cases j <;> simp_all [claude_ask, Json.isObj]

/-- C7, witness for the amended theorem at concrete successful runs, one per
success conjunct plus the non-sized result field raising at the `len` call. -/
theorem C7_witness :
    claude_ask 300 ⟨false, 0, "", " plain text ", none⟩ = .ok (.str "plain text")
    ∧ claude_ask 300 ⟨false, 0, "", "ignored", some (.obj [("result", .str "ans")])⟩ =
        .ok (.str "ans")
    ∧ claude_ask 300 ⟨false, 0, "", "ignored", some (.obj [("result", .num 5)])⟩ =
        .error typeError := by
  refine ⟨?_, ?_, ?_⟩
  · exact C7_amended.1 300 ⟨false, 0, "", " plain text ", none⟩ rfl rfl rfl
  · exact C7_amended.2.1 300 ⟨false, 0, "", "ignored", some (.obj [("result", .str "ans")])⟩
      [("result", .str "ans")] 3 rfl rfl rfl rfl
  · exact C7_amended.2.2.1 300 ⟨false, 0, "", "ignored", some (.obj [("result", .num 5)])⟩
      [("result", .num 5)] typeError rfl rfl rfl rfl

/-- C8: skill resolution is a pure function of the normalised agent type:
"Code_Review" and "code-review" produce the same final prompt for every
question on both backends, an absent or empty agent type leaves the question
unchanged, and a resolving profile name yields the backend sigil, the profile
name, a space and the original question. -/
theorem C8_skill_resolution :
    (∀ q, claude_build_prompt q (some "Code_Review") = claude_build_prompt q (some "code-review")
       ∧ codex_build_prompt q (some "Code_Review") = codex_build_prompt q (some "code-review"))
  ∧ (∀ q, claude_build_prompt q none = q ∧ claude_build_prompt q (some "") = q
       ∧ codex_build_prompt q none = q ∧ codex_build_prompt q (some "") = q)
  ∧ (∀ q agentTy s, skill_name agentTy = some s →
      claude_build_prompt q agentTy = "/" ++ s ++ " " ++ q
      ∧ codex_build_prompt q agentTy = "$" ++ s ++ " " ++ q) := by
  refine ⟨fun q => ⟨rfl, rfl⟩, fun q => ⟨rfl, rfl, rfl, rfl⟩, ?_⟩
  intro q agentTy s h
  constructor
  · simp [claude_build_prompt, h]
  · simp [codex_build_prompt, h]

/-- C8, witness for the resolving-profile conjunct at a concrete input. -/
theorem C8_witness :
    claude_build_prompt "hi" (some "Code_Review") = "/code-review hi"
    ∧ codex_build_prompt "hi" (some "Code_Review") = "$code-review hi" := by
  have h := C8_skill_resolution.2.2 "hi" (some "Code_Review") "code-review" (by decide)
  exact ⟨h.1, h.2⟩

/-- C9: Vocabulary-2 item text extraction never throws: for every input
dictionary, including ones with missing, null or wrongly-typed text, message
and content fields, it returns some string (the empty string on absent or
malformed substructure). -/
theorem C9_extract_never_throws :
    ∀ item : List (String × Json), ∃ s, extract_text_from_item item = .ok s := by
  intro item
  unfold extract_text_from_item
  repeat' split
  all_goals first
    | exact ⟨_, rfl⟩
    | exact extract_message_part_ok _

/-- C10, counterexample: a Claude stream line of type text whose content is
the JSON number 5 is emitted as a token carrying a non-string payload,
refuting the claim that every token carries a non-empty string. -/
theorem C10_counterexample :
    claude_ask_streaming
      ⟨none,
       [.line "\x7b\x22type\x22: \x22text\x22, \x22content\x22: 5\x7d"
          (some (.obj [("type", .str "text"), ("content", .num 5)]))], 0, ""⟩ =
      [.token (.num 5), .done]
    ∧ (Json.num 5).isStr = false :=
  ⟨rfl, rfl⟩

/-- C10, amended: every token event of a streamed turn carries a truthy
payload — in particular a string payload is non-empty — and on the Codex
client every token payload is a non-empty string. -/
theorem C10_amended :
    (∀ run p, Event.token p ∈ claude_ask_streaming run → p.truthy = true)
  ∧ (∀ cli tm q agentTy sid isNew run evs p,
      codex_ask_streaming cli tm q agentTy sid isNew run = .ok evs →
      Event.token p ∈ evs → p.isStr = true ∧ p.truthy = true) := by
  constructor
  · intro run p hmem
    unfold claude_ask_streaming at hmem
    cases hsf : run.spawnFail with
    | some m => simp [hsf] at hmem
    | none =>
      simp only [hsf] at hmem
      cases hexn : (claudeLoop run.reads false).exn with
      | some m =>
        simp only [hexn] at hmem
        rcases List.mem_append.mp hmem with h | h
        · simpa [emitOkClaude] using claudeLoop_emit run.reads false _ h
        · simp at h
      | none =>
        simp only [hexn] at hmem
        rcases List.mem_append.mp hmem with h | h
        · rcases List.mem_append.mp h with h1 | h1
          · simpa [emitOkClaude] using claudeLoop_emit run.reads false _ h1
          · rcases stderrEvents_emit _ _ h1 with ⟨m, hm⟩
            exact Event.noConfusion hm
        · simp at h
  · intro cli tm q agentTy sid isNew run evs p heq hmem
    unfold codex_ask_streaming at heq
    cases hbc : codex_build_cmd cli tm (codex_build_prompt q agentTy) sid isNew with
    | error m =>
      simp only [hbc] at heq
      exact Except.noConfusion heq
    | ok cmd =>
      simp only [hbc] at heq
      cases hsf : run.spawnFail with
      | some m =>
        simp only [hsf] at heq
        injection heq with h
        subst h
        simp at hmem
      | none =>
        simp only [hsf] at heq
        cases hexn : (codexLoop run.reads .null).exn with
        | some m =>
          simp only [hexn] at heq
          injection heq with h
          subst h
          rcases List.mem_append.mp hmem with h | h
          · simpa [emitOkCodex] using codexLoop_emit run.reads .null _ h
          · simp at h
        | none =>
          simp only [hexn] at heq
          injection heq with h
          subst h
          rcases List.mem_append.mp hmem with h | h
          · rcases List.mem_append.mp h with h1 | h1
            · simpa [emitOkCodex] using codexLoop_emit run.reads .null _ h1
            · rcases stderrEvents_emit _ _ h1 with ⟨m, hm⟩
              exact Event.noConfusion hm
          · simp at h

/-- C10, witness for the amended theorem at a concrete run emitting one
token. -/
theorem C10_witness : (Json.str "hello").truthy = true := by
  have hmem : Event.token (.str "hello") ∈
      claude_ask_streaming ⟨none, [.line "hello" none], 0, ""⟩ := by
    show Event.token (.str "hello") ∈ [Event.token (.str "hello"), Event.done]
    simp
  exact C10_amended.1 ⟨none, [.line "hello" none], 0, ""⟩ (.str "hello") hmem
